import Mathlib

/-!
# Verification of the Agents2 core: tool registry, conversation context, persistence

Shallow embedding of the core of the repository:
* `models/context.py` — `UserPreferences`, `SessionData`, `ConversationContext`
* `core/tool_registry.py` — `ToolRegistry` with `register_tool`, `auto_discover_tools`,
  `list_tools`
* `core/persistence.py` — `save_context`, `load_context`, `save_chat_message`,
  `load_chat_history` against a PostgreSQL store
* `core/agent_manager.py` — `AgentManager.chat`

Modelling conventions:
* Python `datetime` values are modelled by `Nat` timestamps; `datetime.now()`
  becomes an explicit `now : Nat` argument threaded to the functions that call it.
* JSON values (the serialization format) are the inductive `Json` below.
  `json.dumps` / `json.loads` are a faithful inverse pair on these trees, so the
  store columns hold the `Json` trees themselves.  `DateTimeEncoder` serializes a
  `datetime` to its ISO-8601 string; ISO strings are in bijection with the
  timestamps they denote, so the serialized datetime is represented by its
  timestamp value.
* Python `dict`s are association lists with unique keys in insertion order;
  `d[k] = v` is `dinsert`, `d.get(k)` is `dlookup`.
* Database effects: the store is an explicit `Store` value; a connection or
  serialization failure inside a persistence call is an explicit `fault : Bool`
  argument (the code catches the raised exception with a broad `except`).
-/

namespace Agents2

/-- JSON values: the serialization format used by the persistence layer. -/
inductive Json where
  | null : Json
  | bool : Bool → Json
  | num : Int → Json
  | str : String → Json
  | arr : List Json → Json
  | obj : List (String × Json) → Json
  deriving Repr

/-! ## Python dict operations (insertion-ordered association lists) -/

/-- Python `d.get(k)` / `d[k]`: first (unique) binding of `k`. -/
def dlookup {α : Type} (k : String) : List (String × α) → Option α
  | [] => none
  | p :: rest => if p.1 = k then some p.2 else dlookup k rest

/-- Python `d[k] = v`: replace in place if the key exists, else append. -/
def dinsert {α : Type} (k : String) (v : α) : List (String × α) → List (String × α)
  | [] => [(k, v)]
  | p :: rest => if p.1 = k then (k, v) :: rest else p :: dinsert k v rest

@[simp] theorem dlookup_nil {α : Type} (k : String) : dlookup (α := α) k [] = none := rfl

theorem dlookup_dinsert_self {α : Type} (k : String) (v : α) (d : List (String × α)) :
    dlookup k (dinsert k v d) = some v := by
  induction d with
  | nil => simp [dinsert, dlookup]
  | cons p rest ih =>
    by_cases h : p.1 = k
    · simp [dinsert, dlookup, h]
    · simp [dinsert, dlookup, h, ih]

theorem dlookup_dinsert_ne {α : Type} (k k' : String) (v : α) (d : List (String × α))
    (hne : k' ≠ k) : dlookup k' (dinsert k v d) = dlookup k' d := by
  have hne' : ¬(k = k') := fun h => hne h.symm
  induction d with
  | nil => simp [dinsert, dlookup, hne']
  | cons p rest ih =>
    by_cases h : p.1 = k
    · have hpk' : ¬(p.1 = k') := by rw [h]; exact hne'
      simp [dinsert, dlookup, h, hne', hpk']
    · by_cases h' : p.1 = k'
      · simp [dinsert, dlookup, h, h', hne, hne']
      · simp [dinsert, dlookup, h, h', ih]

/-- The keys of a dict after insertion: unchanged if present, appended if new. -/
theorem keys_dinsert {α : Type} (k : String) (v : α) (d : List (String × α)) :
    (dinsert k v d).map Prod.fst =
      if (dlookup k d).isSome then d.map Prod.fst else d.map Prod.fst ++ [k] := by
  induction d with
  | nil => simp [dinsert, dlookup]
  | cons p rest ih =>
    by_cases h : p.1 = k
    · simp [dinsert, dlookup, h]
    · simp [dinsert, dlookup, h, ih]
      by_cases hk : (dlookup k rest).isSome <;> simp [hk]

theorem dlookup_isSome_iff_mem_keys {α : Type} (k : String) (d : List (String × α)) :
    (dlookup k d).isSome ↔ k ∈ d.map Prod.fst := by
  induction d with
  | nil => simp [dlookup]
  | cons p rest ih =>
    by_cases h : p.1 = k
    · simp [dlookup, h]
    · simp [dlookup, h, ih, Ne.symm h]

/-- Insertion preserves key uniqueness. -/
theorem nodup_keys_dinsert {α : Type} (k : String) (v : α) (d : List (String × α))
    (hd : (d.map Prod.fst).Nodup) : ((dinsert k v d).map Prod.fst).Nodup := by
  rw [keys_dinsert]
  by_cases hk : (dlookup k d).isSome
  · simpa [hk]
  · rw [if_neg hk]
    rw [List.nodup_append]
    refine ⟨hd, List.nodup_singleton k, ?_⟩
    intro a ha hb
    simp only [List.mem_singleton] at hb
    subst hb
    exact hk ((dlookup_isSome_iff_mem_keys a d).mpr ha)

/-! ## `models/context.py` -/

/-- `UserPreferences` (pydantic model).  `preferred_units` is a Python dict
`str -> str`. -/
structure UserPreferences where
  language : String := "pt-BR"
  timezone : String := "America/Sao_Paulo"
  notification_enabled : Bool := true
  preferred_units : List (String × String) :=
    [("temperature", "celsius"), ("distance", "km"), ("weight", "kg")]
  deriving Repr, DecidableEq

/-- `SessionData` (pydantic model).  Timestamps are `Nat`. -/
structure SessionData where
  session_id : String
  start_time : Nat
  message_count : Nat
  last_activity : Nat
  deriving Repr, DecidableEq

/-- The `default_factory` defaults of `SessionData`: `session_id` is
`str(datetime.now().timestamp())`, both timestamps are `datetime.now()`,
`message_count` is 0.  `now` is the construction-time clock value. -/
def SessionData.fresh (now : Nat) : SessionData :=
  { session_id := toString now
    start_time := now
    message_count := 0
    last_activity := now }

/-- `ConversationContext` (pydantic model).  `custom_data : Dict[str, Any]` is a
dict of serializable values, i.e. `Json`. -/
structure ConversationContext where
  user_id : String := "anonymous"
  user_preferences : UserPreferences := {}
  session_data : SessionData
  custom_data : List (String × Json) := []
  deriving Repr

/-- `ConversationContext(user_id=uid)`: all other fields take their defaults;
`now` is the construction-time clock value feeding the default factories of `SessionData`. -/
def ConversationContext.fresh (uid : String) (now : Nat) : ConversationContext :=
  { user_id := uid
    user_preferences := {}
    session_data := SessionData.fresh now
    custom_data := [] }

/-- `update_activity`: sets `last_activity` to `datetime.now()` (the explicit
`now` argument) and increments `message_count`. -/
def ConversationContext.update_activity (ctx : ConversationContext) (now : Nat) :
    ConversationContext :=
  { ctx with
      session_data :=
        { ctx.session_data with
            last_activity := now
            message_count := ctx.session_data.message_count + 1 } }

/-- `get_user_data`: `self.custom_data.get(key, default)`. -/
def ConversationContext.get_user_data (ctx : ConversationContext) (key : String)
    (default : Json) : Json :=
  (dlookup key ctx.custom_data).getD default

/-- `set_user_data`: `self.custom_data[key] = value`. -/
def ConversationContext.set_user_data (ctx : ConversationContext) (key : String)
    (value : Json) : ConversationContext :=
  { ctx with custom_data := dinsert key value ctx.custom_data }

/-- A sequence of `update_activity()` calls, one per clock reading in `nows`. -/
def ConversationContext.apply_updates (ctx : ConversationContext) :
    List Nat → ConversationContext
  | [] => ctx
  | t :: ts => (ctx.update_activity t).apply_updates ts

/-- The successive states produced by a sequence of `update_activity()` calls
(state after the 1st call, after the 2nd call, ...). -/
def ConversationContext.activity_trace (ctx : ConversationContext) :
    List Nat → List ConversationContext
  | [] => []
  | t :: ts => (ctx.update_activity t) :: (ctx.update_activity t).activity_trace ts

/-! ## `core/persistence.py` — serialization

`save_context` serializes with `json.dumps(model.model_dump(), cls=DateTimeEncoder)`
and `load_context` re-validates with `Model(**json.loads(...))`.  `json.dumps` /
`json.loads` are a faithful inverse pair on `Json` trees, so the dumps below
produce the `Json` tree directly.  `DateTimeEncoder` serializes a `datetime` to
its ISO-8601 string; ISO strings are in bijection with the timestamps they
denote, so the serialized datetime is represented by its timestamp value. -/

/-- The serialized form a `datetime` takes under `DateTimeEncoder`. -/
def datetimeJson (t : Nat) : Json := .num t

/-- pydantic re-validation of a serialized datetime. -/
def parseDatetime : Json → Option Nat
  | .num i => if 0 ≤ i then some i.toNat else none
  | _ => none

def parseString : Json → Option String
  | .str s => some s
  | _ => none

def parseBool : Json → Option Bool
  | .bool b => some b
  | _ => none

def parseNat : Json → Option Nat
  | .num i => if 0 ≤ i then some i.toNat else none
  | _ => none

/-- pydantic validation of a `Dict[str, str]` field. -/
def parseUnits : Json → Option (List (String × String))
  | .obj kvs => kvs.mapM (fun kv =>
      match kv.2 with
      | .str s => some (kv.1, s)
      | _ => none)
  | _ => none

/-- pydantic field lookup: a missing key falls back to the default of the field, a
present key must validate. -/
def field {α : Type} (kvs : List (String × Json)) (k : String) (default : α)
    (parse : Json → Option α) : Option α :=
  match dlookup k kvs with
  | none => some default
  | some j => parse j

/-- `UserPreferences.model_dump()` as a JSON tree. -/
def UserPreferences.model_dump (p : UserPreferences) : Json :=
  .obj [("language", .str p.language),
        ("timezone", .str p.timezone),
        ("notification_enabled", .bool p.notification_enabled),
        ("preferred_units", .obj (p.preferred_units.map (fun u => (u.1, .str u.2))))]

/-- `UserPreferences(**data)`: pydantic validation of a JSON tree; `none` is a
raised `ValidationError`. -/
def UserPreferences.validate (j : Json) : Option UserPreferences :=
  match j with
  | .obj kvs => do
    let language ← field kvs "language" "pt-BR" parseString
    let timezone ← field kvs "timezone" "America/Sao_Paulo" parseString
    let notification_enabled ← field kvs "notification_enabled" true parseBool
    let preferred_units ← field kvs "preferred_units"
        [("temperature", "celsius"), ("distance", "km"), ("weight", "kg")] parseUnits
    some { language := language, timezone := timezone,
           notification_enabled := notification_enabled,
           preferred_units := preferred_units }
  | _ => none

/-- `SessionData.model_dump()` as a JSON tree (datetimes via `DateTimeEncoder`). -/
def SessionData.model_dump (s : SessionData) : Json :=
  .obj [("session_id", .str s.session_id),
        ("start_time", datetimeJson s.start_time),
        ("message_count", .num s.message_count),
        ("last_activity", datetimeJson s.last_activity)]

/-- `SessionData(**data)`: pydantic validation; missing fields take their
default factories, which read the clock (`now`). -/
def SessionData.validate (now : Nat) (j : Json) : Option SessionData :=
  match j with
  | .obj kvs => do
    let session_id ← field kvs "session_id" (toString now) parseString
    let start_time ← field kvs "start_time" now parseDatetime
    let message_count ← field kvs "message_count" 0 parseNat
    let last_activity ← field kvs "last_activity" now parseDatetime
    some { session_id := session_id, start_time := start_time,
           message_count := message_count, last_activity := last_activity }
  | _ => none

/-- pydantic validation of the `custom_data : Dict[str, Any]` field: any JSON
object is accepted as-is. -/
def parseCustomData : Json → Option (List (String × Json))
  | .obj kvs => some kvs
  | _ => none

/-! ## `core/persistence.py` — the store and the gateway operations -/

/-- One row of the `user_contexts` table (the `last_updated` column is not
observed by any load and is omitted). -/
structure StoredContextRow where
  user_preferences : Json
  session_data : Json
  custom_data : Json
  deriving Repr

/-- One row of the `chat_history` table.  `id` is the `SERIAL` key and
`timestamp` the server-assigned `CURRENT_TIMESTAMP`; both are taken from the
sequence counter of the store, which advances at every insert. -/
structure ChatRow where
  id : Nat
  user_id : String
  message_text : String
  sender : String
  timestamp : Nat
  deriving Repr, DecidableEq

/-- The PostgreSQL database: both tables plus the server sequence/clock. -/
structure Store where
  user_contexts : List (String × StoredContextRow)
  chat_history : List ChatRow
  next_seq : Nat
  deriving Repr

def Store.empty : Store := { user_contexts := [], chat_history := [], next_seq := 0 }

/-- `save_context(user_id, context)`: upsert (`INSERT ... ON CONFLICT (user_id)
DO UPDATE`) of the serialized context.  Any raised exception (connection or
serialization failure, modelled by `fault`) is caught, logged, rolled back:
the store is unchanged and nothing propagates to the caller. -/
def save_context (fault : Bool) (store : Store) (user_id : String)
    (context : ConversationContext) : Store :=
  if fault then store
  else
    { store with
        user_contexts :=
          dinsert user_id
            { user_preferences := context.user_preferences.model_dump
              session_data := context.session_data.model_dump
              custom_data := Json.obj context.custom_data }
            store.user_contexts }

/-- `load_context(user_id)`: returns the re-validated stored context;
a missing row, a raised exception (`fault`), or a `ValidationError` while
re-validating all produce `ConversationContext(user_id=user_id)`. -/
def load_context (now : Nat) (fault : Bool) (store : Store) (user_id : String) :
    ConversationContext :=
  if fault then ConversationContext.fresh user_id now
  else
    match dlookup user_id store.user_contexts with
    | some record =>
      match UserPreferences.validate record.user_preferences,
            SessionData.validate now record.session_data,
            parseCustomData record.custom_data with
      | some user_preferences, some session_data, some custom_data =>
          { user_id := user_id
            user_preferences := user_preferences
            session_data := session_data
            custom_data := custom_data }
      | _, _, _ => ConversationContext.fresh user_id now
    | none => ConversationContext.fresh user_id now

/-- `save_chat_message(user_id, message, sender)`: append-only `INSERT`; the
server assigns `id` and `timestamp` from its sequence.  A raised exception
(`fault`) is caught, logged, rolled back: the store is unchanged. -/
def save_chat_message (fault : Bool) (store : Store) (user_id message sender : String) :
    Store :=
  if fault then store
  else
    { store with
        chat_history := store.chat_history ++
          [{ id := store.next_seq
             user_id := user_id
             message_text := message
             sender := sender
             timestamp := store.next_seq }]
        next_seq := store.next_seq + 1 }

/-- One entry of the list returned by `load_chat_history`. -/
structure HistoryEntry where
  sender : String
  message_text : String
  deriving Repr, DecidableEq

/-- `ORDER BY timestamp DESC`: insertion of one row into a descending-sorted
list. -/
def insertDescByTs (r : ChatRow) : List ChatRow → List ChatRow
  | [] => [r]
  | s :: rest =>
      if s.timestamp ≤ r.timestamp then r :: s :: rest else s :: insertDescByTs r rest

/-- `ORDER BY timestamp DESC` over a whole table. -/
def orderByTimestampDesc (rows : List ChatRow) : List ChatRow :=
  rows.foldr insertDescByTs []

/-- `load_chat_history(user_id, limit)`: `SELECT message_text, sender ... WHERE
user_id = %s ORDER BY timestamp DESC LIMIT %s`, then `reversed` so that the
returned window is chronological.  A raised exception (`fault`) yields `[]`. -/
def load_chat_history (fault : Bool) (store : Store) (user_id : String) (limit : Nat) :
    List HistoryEntry :=
  if fault then []
  else
    let messages :=
      (orderByTimestampDesc
          (store.chat_history.filter (fun r => r.user_id = user_id))).take limit
    messages.reverse.map (fun r => { sender := r.sender, message_text := r.message_text })

/-! ## `core/tool_registry.py` -/

/-- A Python object bound in a module, as seen by `inspect.getmembers`:
whether it is a function (`inspect.isfunction`), its `__name__`, its
`__doc__`, and its `__tool_metadata__` attribute when set. -/
structure PyObject where
  isFunction : Bool
  name : String
  doc : Option String
  tool_metadata : Option (List (String × Json))
  deriving Repr

/-- The exception raised by `importlib.import_module` on a module that fails
to load.  `importError` covers `ImportError` (and its subclasses);
`otherError` is any other exception class — notably the syntax-error
exception raised by a module whose source does not parse, which is *not* an
`ImportError`. -/
inductive LoadError where
  | importError (msg : String)
  | otherError (msg : String)
  deriving Repr, DecidableEq

/-- One `*.py` file of the tools directory: its file name and the outcome of
importing it.  On success the members are listed in `inspect.getmembers`
order (alphabetical by binding name). -/
structure Module where
  fileName : String
  load : Except LoadError (List (String × PyObject))

/-- `ToolRegistry`: `self.tools` and `self.tool_metadata` are Python dicts. -/
structure ToolRegistry where
  tools : List (String × PyObject) := []
  tool_metadata : List (String × List (String × Json)) := []
  deriving Repr

def ToolRegistry.empty : ToolRegistry := {}

/-- `register_tool(name, func, metadata=None)`:
`self.tools[name] = func; self.tool_metadata[name] = metadata or {}`. -/
def ToolRegistry.register_tool (reg : ToolRegistry) (name : String) (func : PyObject)
    (metadata : Option (List (String × Json)) := none) : ToolRegistry :=
  { tools := dinsert name func reg.tools
    tool_metadata := dinsert name (metadata.getD []) reg.tool_metadata }

/-- The inner member loop of `auto_discover_tools`: for every member that is a
function carrying `__tool_metadata__`, register it and append its name to
`discovered`. -/
def discoverMembers (acc : ToolRegistry × List String)
    (members : List (String × PyObject)) : ToolRegistry × List String :=
  members.foldl
    (fun acc m =>
      if m.2.isFunction && m.2.tool_metadata.isSome then
        (acc.1.register_tool m.1 m.2 m.2.tool_metadata, acc.2 ++ [m.1])
      else acc)
    acc

/-- `file_path.name.startswith("__")`, decided on the character list. -/
def startsWithDunder (s : String) : Bool := "__".data.isPrefixOf s.data

/-- The per-file loop of `auto_discover_tools`.  Files starting with `__` are
skipped; `except ImportError` catches *only* `ImportError`, so any other
exception raised by the import (e.g. a `SyntaxError`) propagates out. -/
def autoDiscoverLoop (acc : ToolRegistry × List String) :
    List Module → Except LoadError (ToolRegistry × List String)
  | [] => .ok acc
  | m :: rest =>
    if startsWithDunder m.fileName then autoDiscoverLoop acc rest
    else
      match m.load with
      | .ok members => autoDiscoverLoop (discoverMembers acc members) rest
      | .error (.importError _) => autoDiscoverLoop acc rest
      | .error e => .error e

/-- `auto_discover_tools(tools_directory)`: `none` models a directory path for
which `Path(...).exists()` is false (return `discovered = []` immediately);
`some files` models the `glob("*.py")` listing.  The result is the updated
registry together with the returned `discovered` list; `.error` is an
uncaught exception escaping the call. -/
def ToolRegistry.auto_discover_tools (reg : ToolRegistry)
    (directory : Option (List Module)) : Except LoadError (ToolRegistry × List String) :=
  match directory with
  | none => .ok (reg, [])
  | some files => autoDiscoverLoop (reg, []) files

/-- One value of the mapping returned by `list_tools`. -/
structure ToolInfo where
  function : String
  doc : String
  metadata : List (String × Json)
  deriving Repr

/-- `list_tools()`: `{name: {"function": func.__name__, "doc": func.__doc__ or
"Sem descrição", "metadata": self.tool_metadata.get(name, {})} for name, func
in self.tools.items()}`. -/
def ToolRegistry.list_tools (reg : ToolRegistry) : List (String × ToolInfo) :=
  reg.tools.map (fun p =>
    (p.1,
     { function := p.2.name
       doc := p.2.doc.getD "Sem descrição"
       metadata := (dlookup p.1 reg.tool_metadata).getD [] }))

/-- One manual registration call: its arguments. -/
structure RegCall where
  name : String
  func : PyObject
  metadata : Option (List (String × Json))

/-- A finite sequence of `register_tool` calls, applied in order. -/
def ToolRegistry.apply_registrations (reg : ToolRegistry) : List RegCall → ToolRegistry
  | [] => reg
  | c :: rest => (reg.register_tool c.name c.func c.metadata).apply_registrations rest

/-- The last registration of a given name in a sequence of calls, if any. -/
def last_registration (n : String) : List RegCall → Option RegCall
  | [] => none
  | c :: rest =>
      match last_registration n rest with
      | some r => some r
      | none => if c.name = n then some c else none

/-! ## `core/agent_manager.py` -/

/-- The fixed fallback returned by `AgentManager.chat` when the turn fails. -/
def fallbackResponse : String := "Desculpe, ocorreu um erro. Tente novamente."

/-- `AgentManager.chat(message)` for one turn.  The opaque
`await self.agent.run(message, deps=self.context)` is the argument `agent`:
given the context it receives, it returns the context as mutated in place by
the tools it invoked, together with either the response text (`str(result)`)
or a raised exception.  The `try` block catches any exception and returns the
fixed fallback; the persistence calls themselves never raise (`fault` models
their internal failures). -/
def AgentManager.chat (fault : Bool) (user_id : String) (ctx : ConversationContext)
    (store : Store) (now : Nat) (message : String)
    (agent : ConversationContext → ConversationContext × Except String String) :
    String × ConversationContext × Store :=
  let ctx1 := ctx.update_activity now
  let store1 := save_chat_message fault store user_id message "user"
  match agent ctx1 with
  | (ctx2, .ok bot_response) =>
      let store2 := save_chat_message fault store1 user_id bot_response "bot"
      let store3 := save_context fault store2 user_id ctx2
      (bot_response, ctx2, store3)
  | (ctx2, .error _) =>
      (fallbackResponse, ctx2, store1)

/-! ## General dictionary lemmas -/

theorem dlookup_dinsert {α : Type} (k k' : String) (v : α) (d : List (String × α)) :
    dlookup k' (dinsert k v d) = if k = k' then some v else dlookup k' d := by
  by_cases h : k = k'
  · subst h
    simp [dlookup_dinsert_self]
  · simp [h, dlookup_dinsert_ne k k' v d (Ne.symm h)]

theorem dlookup_map_keyed {α β : Type} (g : String → α → β) (n : String)
    (l : List (String × α)) :
    dlookup n (l.map (fun p => (p.1, g p.1 p.2))) = (dlookup n l).map (g n) := by
  induction l with
  | nil => simp [dlookup]
  | cons p rest ih =>
    by_cases h : p.1 = n
    · subst h
      simp [dlookup]
    · simp [dlookup, h, ih]

/-! ## Claim theorems

The claims of the specification, settled one by one.  `Cn_*` is the theorem of claim n; `Cn_*_witness` instantiates it at a concrete input. -/

/-- Claim C9: `set_user_data(key, value)` followed by `get_user_data(key,
default)` returns exactly `value` whatever `default` is supplied, and for a
key absent from `custom_data`, `get_user_data(key, default)` returns the
supplied `default` (the context itself is a value, so nothing is modified). -/
theorem C9_user_data_roundtrip (ctx : ConversationContext) (key : String)
    (value default : Json) :
    (ctx.set_user_data key value).get_user_data key default = value ∧
    (dlookup key ctx.custom_data = none →
      ctx.get_user_data key default = default) := by
  constructor
  · simp [ConversationContext.set_user_data, ConversationContext.get_user_data,
      dlookup_dinsert_self]
  · intro habsent
    simp [ConversationContext.get_user_data, habsent]

theorem C9_user_data_roundtrip_witness :
    ((ConversationContext.fresh "u1" 0).set_user_data "color" (.str "blue")).get_user_data
        "color" .null = .str "blue" ∧
    (ConversationContext.fresh "u1" 0).get_user_data "color" (.str "red") = .str "red" := by
  have h := C9_user_data_roundtrip (ConversationContext.fresh "u1" 0) "color"
    (.str "blue") .null
  have h' := C9_user_data_roundtrip (ConversationContext.fresh "u1" 0) "color"
    (.str "blue") (.str "red")
  exact ⟨h.1, h'.2 rfl⟩

/-- Claim C10: `auto_discover_tools` on a directory path that does not exist
returns an empty list without raising and registers nothing: the registry is
returned unchanged. -/
theorem C10_missing_directory (reg : ToolRegistry) :
    reg.auto_discover_tools none = .ok (reg, []) := rfl

/-- After any number of `update_activity()` calls the `message_count` has grown
by exactly the number of calls. -/
theorem apply_updates_message_count (ctx : ConversationContext) (nows : List Nat) :
    (ctx.apply_updates nows).session_data.message_count =
      ctx.session_data.message_count + nows.length := by
  induction nows generalizing ctx with
  | nil => simp [ConversationContext.apply_updates]
  | cons t ts ih =>
    simp [ConversationContext.apply_updates, ih, ConversationContext.update_activity]
    omega

/-- The `last_activity` values along a sequence of `update_activity()` calls
are exactly the clock readings. -/
theorem activity_trace_map_last_activity (ctx : ConversationContext) (nows : List Nat) :
    (ctx.activity_trace nows).map (fun c => c.session_data.last_activity) = nows := by
  induction nows generalizing ctx with
  | nil => simp [ConversationContext.activity_trace]
  | cons t ts ih =>
    simp [ConversationContext.activity_trace, ConversationContext.update_activity, ih]

/-- `update_activity()` never touches `start_time`. -/
theorem activity_trace_start_time (ctx : ConversationContext) (nows : List Nat) :
    ∀ c ∈ ctx.activity_trace nows,
      c.session_data.start_time = ctx.session_data.start_time := by
  induction nows generalizing ctx with
  | nil => simp [ConversationContext.activity_trace]
  | cons t ts ih =>
    intro c hc
    simp only [ConversationContext.activity_trace, List.mem_cons] at hc
    rcases hc with h | h
    · subst h
      rfl
    · exact (ih (ctx.update_activity t) c h).trans rfl

/-- Claim C4: after `N` calls to `update_activity()` (with the clock readings
`nows`, which the real clock delivers in non-decreasing order and no earlier
than `start_time`), `message_count` equals its value before plus `N`,
`last_activity` is non-decreasing across the calls, and
`last_activity >= start_time` holds after every call. -/
theorem C4_update_activity (ctx : ConversationContext) (nows : List Nat)
    (hmono : List.Chain' (· ≤ ·) nows)
    (hstart : ∀ t ∈ nows, ctx.session_data.start_time ≤ t) :
    (ctx.apply_updates nows).session_data.message_count =
        ctx.session_data.message_count + nows.length ∧
    List.Chain' (· ≤ ·)
      ((ctx.activity_trace nows).map (fun c => c.session_data.last_activity)) ∧
    ∀ c ∈ ctx.activity_trace nows,
      c.session_data.start_time ≤ c.session_data.last_activity := by
  refine ⟨apply_updates_message_count ctx nows, ?_, ?_⟩
  · rw [activity_trace_map_last_activity]
    exact hmono
  · intro c hc
    have hlast : c.session_data.last_activity ∈ nows := by
      rw [← activity_trace_map_last_activity ctx nows]
      exact List.mem_map_of_mem _ hc
    rw [activity_trace_start_time ctx nows c hc]
    exact hstart _ hlast

theorem C4_update_activity_witness :
    (((ConversationContext.fresh "u1" 3).apply_updates [5, 7, 7]).session_data.message_count
        = 0 + 3) ∧
    List.Chain' (· ≤ ·)
      (((ConversationContext.fresh "u1" 3).activity_trace [5, 7, 7]).map
        (fun c => c.session_data.last_activity)) ∧
    ∀ c ∈ (ConversationContext.fresh "u1" 3).activity_trace [5, 7, 7],
      c.session_data.start_time ≤ c.session_data.last_activity := by
  have h := C4_update_activity (ConversationContext.fresh "u1" 3) [5, 7, 7]
    (by simp) (by intro t ht; fin_cases ht <;> simp [ConversationContext.fresh, SessionData.fresh])
  exact h

/-- Claim C8: `save_context` and `save_chat_message` never raise: a storage or
serialization failure leaves the store untouched and returns normally, and a
later successful `save_context` is the effective checkpoint, exactly as if the
failed save had not happened. -/
theorem C8_save_never_raises (store : Store) (uid msg sender : String)
    (ctx c1 c2 : ConversationContext) :
    save_context true store uid ctx = store ∧
    save_chat_message true store uid msg sender = store ∧
    save_context false (save_context true store uid c1) uid c2 =
      save_context false store uid c2 := by
  refine ⟨rfl, rfl, ?_⟩
  simp [save_context]

/-- Claim C5: `load_context` on a store failure, and on a `user_id` with no
persisted record, returns `ConversationContext(user_id=user_id)`: the given
id with default preferences, without raising. -/
theorem C5_load_context_fallback (now : Nat) (store : Store) (uid : String)
    (habsent : dlookup uid store.user_contexts = none) :
    load_context now true store uid = ConversationContext.fresh uid now ∧
    load_context now false store uid = ConversationContext.fresh uid now ∧
    (ConversationContext.fresh uid now).user_id = uid ∧
    (ConversationContext.fresh uid now).user_preferences = {} := by
  refine ⟨rfl, ?_, rfl, rfl⟩
  simp [load_context, habsent]

theorem C5_load_context_fallback_witness :
    load_context 2 false Store.empty "never_seen_id" =
        ConversationContext.fresh "never_seen_id" 2 ∧
    (ConversationContext.fresh "never_seen_id" 2).user_id = "never_seen_id" ∧
    (ConversationContext.fresh "never_seen_id" 2).user_preferences = {} := by
  have h := C5_load_context_fallback 2 Store.empty "never_seen_id" rfl
  exact ⟨h.2.1, h.2.2.1, h.2.2.2⟩

/-! ## Claim C3: registry last-writer-wins -/

theorem tools_lookup_apply_registrations (reg : ToolRegistry) (regs : List RegCall)
    (n : String) :
    dlookup n (reg.apply_registrations regs).tools =
      match last_registration n regs with
      | some c => some c.func
      | none => dlookup n reg.tools := by
  induction regs generalizing reg with
  | nil => simp [ToolRegistry.apply_registrations, last_registration]
  | cons c rest ih =>
    rw [ToolRegistry.apply_registrations, ih]
    simp only [last_registration, ToolRegistry.register_tool]
    cases h : last_registration n rest with
    | some r => simp
    | none =>
      simp only []
      rw [dlookup_dinsert]
      by_cases hc : c.name = n <;> simp [hc]

theorem metadata_lookup_apply_registrations (reg : ToolRegistry) (regs : List RegCall)
    (n : String) :
    dlookup n (reg.apply_registrations regs).tool_metadata =
      match last_registration n regs with
      | some c => some (c.metadata.getD [])
      | none => dlookup n reg.tool_metadata := by
  induction regs generalizing reg with
  | nil => simp [ToolRegistry.apply_registrations, last_registration]
  | cons c rest ih =>
    rw [ToolRegistry.apply_registrations, ih]
    simp only [last_registration, ToolRegistry.register_tool]
    cases h : last_registration n rest with
    | some r => simp
    | none =>
      simp only []
      rw [dlookup_dinsert]
      by_cases hc : c.name = n <;> simp [hc]

theorem last_registration_isSome (n : String) (regs : List RegCall) :
    (last_registration n regs).isSome ↔ n ∈ regs.map RegCall.name := by
  induction regs with
  | nil => simp [last_registration]
  | cons c rest ih =>
    simp only [last_registration, List.map_cons, List.mem_cons]
    cases h : last_registration n rest with
    | some r =>
      simp only [Option.isSome_some, true_iff]
      right
      rw [← ih, h]
      rfl
    | none =>
      rw [h] at ih
      by_cases hc : c.name = n
      · simp [hc]
      · simp only [hc, if_false]
        simp only [Option.isSome_none] at ih ⊢
        constructor
        · intro hfalse
          exact absurd hfalse (by simp)
        · intro hmem
          rcases hmem with h' | h'
          · exact absurd h'.symm hc
          · exact absurd (ih.mpr h') (by simp)

theorem nodup_tools_keys_apply_registrations (reg : ToolRegistry) (regs : List RegCall)
    (h : (reg.tools.map Prod.fst).Nodup) :
    (((reg.apply_registrations regs).tools).map Prod.fst).Nodup := by
  induction regs generalizing reg with
  | nil => exact h
  | cons c rest ih =>
    exact ih _ (nodup_keys_dinsert c.name c.func reg.tools h)

/-- Claim C3: any finite sequence of `register_tool` calls succeeds (the model
is a total function), and the final `list_tools()` mapping has exactly one
entry per distinct registered name — whose displayed metadata (and function)
is that of the last registration under that name. -/
theorem C3_register_last_writer_wins (regs : List RegCall) :
    ((ToolRegistry.empty.apply_registrations regs).list_tools.map Prod.fst).Nodup ∧
    (∀ n, (dlookup n (ToolRegistry.empty.apply_registrations regs).list_tools).isSome
        ↔ n ∈ regs.map RegCall.name) ∧
    (∀ n c, last_registration n regs = some c →
      dlookup n (ToolRegistry.empty.apply_registrations regs).list_tools =
        some { function := c.func.name
               doc := c.func.doc.getD "Sem descrição"
               metadata := c.metadata.getD [] }) := by
  have hkeys :
      (ToolRegistry.empty.apply_registrations regs).list_tools.map Prod.fst =
        (ToolRegistry.empty.apply_registrations regs).tools.map Prod.fst := by
    simp [ToolRegistry.list_tools]
  have hlook : ∀ n,
      dlookup n (ToolRegistry.empty.apply_registrations regs).list_tools =
        (dlookup n (ToolRegistry.empty.apply_registrations regs).tools).map
          (fun f =>
            { function := f.name
              doc := f.doc.getD "Sem descrição"
              metadata :=
                (dlookup n (ToolRegistry.empty.apply_registrations regs).tool_metadata).getD [] }) := by
    intro n
    have hm := dlookup_map_keyed
      (fun nm (f : PyObject) =>
        ({ function := f.name
           doc := f.doc.getD "Sem descrição"
           metadata :=
             (dlookup nm (ToolRegistry.empty.apply_registrations regs).tool_metadata).getD [] } :
          ToolInfo))
      n (ToolRegistry.empty.apply_registrations regs).tools
    simpa [ToolRegistry.list_tools] using hm
  refine ⟨?_, ?_, ?_⟩
  · rw [hkeys]
    exact nodup_tools_keys_apply_registrations ToolRegistry.empty regs (by simp [ToolRegistry.empty])
  · intro n
    rw [hlook n, ← last_registration_isSome n regs,
      tools_lookup_apply_registrations ToolRegistry.empty regs n]
    cases h : last_registration n regs <;> simp [ToolRegistry.empty, dlookup]
  · intro n c hc
    rw [hlook n, tools_lookup_apply_registrations ToolRegistry.empty regs n,
      metadata_lookup_apply_registrations ToolRegistry.empty regs n, hc]
    simp

theorem C3_register_last_writer_wins_witness :
    dlookup "calc"
        ((ToolRegistry.empty.apply_registrations
          [{ name := "calc"
             func := { isFunction := true, name := "calculate"
                       doc := some "v1", tool_metadata := none }
             metadata := some [("version", Json.str "A")] },
           { name := "calc"
             func := { isFunction := true, name := "calculate"
                       doc := some "v2", tool_metadata := none }
             metadata := some [("version", Json.str "B")] }]).list_tools) =
      some { function := "calculate", doc := "v2"
             metadata := [("version", Json.str "B")] } := by
  have h := C3_register_last_writer_wins
    [{ name := "calc"
       func := { isFunction := true, name := "calculate"
                 doc := some "v1", tool_metadata := none }
       metadata := some [("version", Json.str "A")] },
     { name := "calc"
       func := { isFunction := true, name := "calculate"
                 doc := some "v2", tool_metadata := none }
       metadata := some [("version", Json.str "B")] }]
  exact h.2.2 "calc"
    { name := "calc"
      func := { isFunction := true, name := "calculate"
                doc := some "v2", tool_metadata := none }
      metadata := some [("version", Json.str "B")] } rfl

/-! ## Claim C1: save/load round trip -/

theorem parseUnits_roundtrip (units : List (String × String)) :
    parseUnits (.obj (units.map (fun u => (u.1, .str u.2)))) = some units := by
  simp only [parseUnits]
  induction units with
  | nil => rfl
  | cons u rest ih =>
    simp only [List.map_cons, List.mapM_cons, ih]
    rfl

theorem UserPreferences.validate_dump_roundtrip (p : UserPreferences) :
    UserPreferences.validate p.model_dump = some p := by
  simp +decide [UserPreferences.validate, UserPreferences.model_dump, field, dlookup,
    parseString, parseBool, parseUnits_roundtrip]

theorem SessionData.validate_dump_inverse (now : Nat) (s : SessionData) :
    SessionData.validate now s.model_dump = some s := by
  simp +decide [SessionData.validate, SessionData.model_dump, field, dlookup,
    parseString, parseNat, parseDatetime, datetimeJson]

/-- Claim C1: for a context belonging to `user_id u` (its serializable fields
are `Json` values by construction), `save_context(u, ctx)` followed by
`load_context(u)` returns a context equal to `ctx` in all observable fields —
the entire structure, `custom_data` included, survives the round trip. -/
theorem C1_save_load_roundtrip (now : Nat) (store : Store) (uid : String)
    (ctx : ConversationContext) (hid : ctx.user_id = uid) :
    load_context now false (save_context false store uid ctx) uid = ctx := by
  simp only [load_context, save_context, if_neg Bool.false_ne_true]
  rw [dlookup_dinsert_self]
  simp only [UserPreferences.validate_dump_roundtrip, SessionData.validate_dump_inverse,
    parseCustomData]
  cases ctx with
  | mk user_id user_preferences session_data custom_data =>
    simp_all

/-- A context carrying the literal `calc_history` extension data of the round-trip test of the spec. -/
def calcHistoryCtx : ConversationContext :=
  { user_id := "u7"
    user_preferences := {}
    session_data := SessionData.fresh 50
    custom_data :=
      [("calc_history", .arr [.obj [("expression", .str "2+2"), ("result", .num 4)]])] }

theorem C1_save_load_roundtrip_witness :
    load_context 60 false (save_context false Store.empty "u7" calcHistoryCtx) "u7" =
        calcHistoryCtx ∧
    (load_context 60 false (save_context false Store.empty "u7" calcHistoryCtx)
        "u7").get_user_data "calc_history" .null =
      .arr [.obj [("expression", .str "2+2"), ("result", .num 4)]] := by
  have h := C1_save_load_roundtrip 60 Store.empty "u7" calcHistoryCtx rfl
  refine ⟨h, ?_⟩
  rw [h]
  rfl

/-! ## Claim C6: recent history is returned chronologically -/

theorem insertDescByTs_append (r : ChatRow) (l : List ChatRow)
    (h : ∀ s ∈ l, ¬ s.timestamp ≤ r.timestamp) :
    insertDescByTs r l = l ++ [r] := by
  induction l with
  | nil => rfl
  | cons s rest ih =>
    rw [insertDescByTs, if_neg (h s (List.mem_cons_self s rest))]
    rw [ih (fun x hx => h x (List.mem_cons_of_mem s hx))]
    rfl

/-- On a table whose rows are already in strictly increasing timestamp order,
`ORDER BY timestamp DESC` is exactly list reversal. -/
theorem orderByTimestampDesc_of_increasing (rows : List ChatRow)
    (h : rows.Pairwise (fun a b => a.timestamp < b.timestamp)) :
    orderByTimestampDesc rows = rows.reverse := by
  induction rows with
  | nil => rfl
  | cons a l ih =>
    rw [List.pairwise_cons] at h
    rw [orderByTimestampDesc] at ih ⊢
    rw [List.foldr_cons, ih h.2, List.reverse_cons]
    apply insertDescByTs_append
    intro s hs
    rw [List.mem_reverse] at hs
    exact Nat.not_le_of_lt (h.1 s hs)

/-- Claim C6: `load_chat_history(user_id, limit)` returns at most `limit`
entries, and they are the most recent messages of that `user_id` in
chronological order: the last `limit` elements (`reverse`, `take`, `reverse`)
of the chronological transcript of the user, not the reversed window.  The
hypothesis is the store invariant that `chat_history` carries server-assigned
strictly increasing timestamps. -/
theorem C6_load_chat_history (store : Store) (uid : String) (limit : Nat)
    (h : store.chat_history.Pairwise (fun a b => a.timestamp < b.timestamp)) :
    (load_chat_history false store uid limit).length ≤ limit ∧
    load_chat_history false store uid limit =
      ((((store.chat_history.filter (fun r => r.user_id = uid)).map
          (fun r => ({ sender := r.sender, message_text := r.message_text } :
            HistoryEntry))).reverse.take limit).reverse) := by
  have hfilter : (store.chat_history.filter (fun r => r.user_id = uid)).Pairwise
      (fun a b => a.timestamp < b.timestamp) := h.filter _
  have heq : load_chat_history false store uid limit =
      ((((store.chat_history.filter (fun r => r.user_id = uid)).map
          (fun r => ({ sender := r.sender, message_text := r.message_text } :
            HistoryEntry))).reverse.take limit).reverse) := by
    rw [load_chat_history, if_neg Bool.false_ne_true]
    rw [orderByTimestampDesc_of_increasing _ hfilter]
    rw [← List.map_reverse, ← List.map_take, ← List.map_reverse]
  refine ⟨?_, heq⟩
  rw [heq, List.length_reverse, List.length_take]
  exact Nat.min_le_left _ _

/-- The store after appending `"hi"` (user), `"hello"` (bot), `"bye"` (user)
for the same user. -/
def threeMessageStore : Store :=
  save_chat_message false
    (save_chat_message false
      (save_chat_message false Store.empty "u1" "hi" "user") "u1" "hello" "bot")
    "u1" "bye" "user"

theorem C6_load_chat_history_witness :
    (load_chat_history false threeMessageStore "u1" 10).length ≤ 10 ∧
    load_chat_history false threeMessageStore "u1" 10 =
      [{ sender := "user", message_text := "hi" },
       { sender := "bot", message_text := "hello" },
       { sender := "user", message_text := "bye" }] := by
  have h := C6_load_chat_history threeMessageStore "u1" 10 (by decide)
  exact ⟨h.1, by rfl⟩

/-! ## Claim C2: discovery and failing modules

The marker predicate of the member loop: `inspect.isfunction(obj) and
hasattr(obj, "__tool_metadata__")`. -/

def isMarkedTool (m : String × PyObject) : Bool :=
  m.2.isFunction && m.2.tool_metadata.isSome

theorem discoverMembers_discovered (acc : ToolRegistry × List String)
    (members : List (String × PyObject)) :
    (discoverMembers acc members).2 =
      acc.2 ++ (members.filter isMarkedTool).map Prod.fst := by
  induction members generalizing acc with
  | nil => simp [discoverMembers]
  | cons m rest ih =>
    rw [discoverMembers, List.foldl_cons]
    by_cases hm : isMarkedTool m
    · rw [if_pos (by simpa [isMarkedTool] using hm)]
      rw [← discoverMembers, ih]
      simp [hm]
    · rw [if_neg (by simpa [isMarkedTool] using hm)]
      rw [← discoverMembers, ih]
      simp [hm]

theorem dlookup_dinsert_isSome {α : Type} (k n : String) (v : α) (d : List (String × α))
    (h : (dlookup n d).isSome) : (dlookup n (dinsert k v d)).isSome := by
  rw [dlookup_dinsert]
  by_cases hk : k = n <;> simp [hk, h]

theorem discoverMembers_preserves_lookup (acc : ToolRegistry × List String)
    (members : List (String × PyObject)) (n : String)
    (h : (dlookup n acc.1.tools).isSome) :
    (dlookup n (discoverMembers acc members).1.tools).isSome := by
  induction members generalizing acc with
  | nil => exact h
  | cons m rest ih =>
    rw [discoverMembers, List.foldl_cons, ← discoverMembers]
    by_cases hm : (m.2.isFunction && m.2.tool_metadata.isSome) = true
    · rw [if_pos hm]
      exact ih _ (dlookup_dinsert_isSome m.1 n m.2 acc.1.tools h)
    · rw [if_neg hm]
      exact ih _ h

theorem discoverMembers_registers (acc : ToolRegistry × List String)
    (members : List (String × PyObject)) :
    ∀ m ∈ members, isMarkedTool m →
      (dlookup m.1 (discoverMembers acc members).1.tools).isSome := by
  induction members generalizing acc with
  | nil => intro m hm; exact absurd hm (List.not_mem_nil m)
  | cons m' rest ih =>
    intro m hm hmark
    rw [discoverMembers, List.foldl_cons, ← discoverMembers]
    rcases List.mem_cons.mp hm with heq | hrest
    · subst heq
      rw [if_pos (by simpa [isMarkedTool] using hmark)]
      exact discoverMembers_preserves_lookup _ rest m.1
        (by simp [ToolRegistry.register_tool, dlookup_dinsert_self])
    · by_cases hm' : (m'.2.isFunction && m'.2.tool_metadata.isSome) = true
      · rw [if_pos hm']
        exact ih _ m hrest hmark
      · rw [if_neg hm']
        exact ih _ m hrest hmark

/-- A well-formed tool module: importing succeeds and yields its members. -/
def wellFormedModule (fname : String) (members : List (String × PyObject)) : Module :=
  { fileName := fname, load := .ok members }

/-- A module whose import raises: `err` is the raised exception. -/
def failingModule (fname : String) (err : LoadError) : Module :=
  { fileName := fname, load := .error err }

/-- Counterexample to claim C2 as stated: a directory with one well-formed
module and one module whose import raises an exception that is *not* an
`ImportError` — exactly what a syntax error in the module source raises —
makes `auto_discover_tools` itself raise (the code catches only
`ImportError`), instead of skipping the module. -/
theorem C2_counterexample :
    ToolRegistry.empty.auto_discover_tools
        (some [wellFormedModule "calculator.py"
                 [("calculate",
                   { isFunction := true, name := "calculate"
                     doc := some "Calcula expressões"
                     tool_metadata := some [("category", Json.str "math")] })],
               failingModule "broken.py" (.otherError "invalid decimal literal")]) =
      .error (.otherError "invalid decimal literal") := rfl

/-- Claim C2 as amended: for a directory with one well-formed module and one
module whose import fails with an `ImportError`, `auto_discover_tools` does
not raise, skips the failing module, and registers and returns exactly the
marked function names of the well-formed module; a module failing with any
other exception (e.g. a syntax error) propagates instead. -/
theorem C2_discovery_import_error_skipped (reg : ToolRegistry)
    (gname bname msg : String) (members : List (String × PyObject))
    (hg : startsWithDunder gname = false) (hb : startsWithDunder bname = false) :
    ∃ reg' : ToolRegistry,
      reg.auto_discover_tools
          (some [wellFormedModule gname members,
                 failingModule bname (.importError msg)]) =
        .ok (reg', (members.filter isMarkedTool).map Prod.fst) ∧
      ∀ m ∈ members, isMarkedTool m → (dlookup m.1 reg'.tools).isSome := by
  refine ⟨(discoverMembers (reg, []) members).1, ?_, ?_⟩
  · rw [ToolRegistry.auto_discover_tools, autoDiscoverLoop]
    rw [if_neg (by simp [wellFormedModule, hg])]
    simp only [wellFormedModule]
    rw [autoDiscoverLoop]
    rw [if_neg (by simp [failingModule, hb])]
    simp only [failingModule]
    rw [autoDiscoverLoop]
    have h2 : (discoverMembers (reg, []) members).2 =
        (members.filter isMarkedTool).map Prod.fst := by
      rw [discoverMembers_discovered]
      rfl
    rw [← h2]
  · exact discoverMembers_registers (reg, []) members

theorem C2_discovery_import_error_skipped_witness :
    ∃ reg' : ToolRegistry,
      ToolRegistry.empty.auto_discover_tools
          (some [wellFormedModule "calculator.py"
                   [("calculate",
                     { isFunction := true, name := "calculate"
                       doc := some "Calcula expressões"
                       tool_metadata := some [("category", Json.str "math")] })],
                 failingModule "broken.py" (.importError "No module named requests")]) =
        .ok (reg', ["calculate"]) ∧
      ∀ m ∈ [("calculate",
               ({ isFunction := true, name := "calculate"
                  doc := some "Calcula expressões"
                  tool_metadata := some [("category", Json.str "math")] } : PyObject))],
        isMarkedTool m → (dlookup m.1 reg'.tools).isSome := by
  have h := C2_discovery_import_error_skipped ToolRegistry.empty
    "calculator.py" "broken.py" "No module named requests"
    [("calculate",
      { isFunction := true, name := "calculate"
        doc := some "Calcula expressões"
        tool_metadata := some [("category", Json.str "math")] })]
    rfl rfl
  exact h

/-! ## Claim C7: a failing agent run degrades to the fallback -/

/-- Counterexample to claim C7 as stated: when the opaque agent invocation
raises, `chat` returns the fixed fallback and the in-memory `message_count`
is incremented — but the context is *not* saved during that turn: after the
failed turn the `user_contexts` table is still empty, while the claim says
the context is still saved. -/
theorem C7_counterexample :
    (AgentManager.chat false "u9" (ConversationContext.fresh "u9" 0) Store.empty 1 "olá"
        (fun c => (c, .error "boom"))).1 = fallbackResponse ∧
    (AgentManager.chat false "u9" (ConversationContext.fresh "u9" 0) Store.empty 1 "olá"
        (fun c => (c, .error "boom"))).2.1.session_data.message_count = 1 ∧
    (AgentManager.chat false "u9" (ConversationContext.fresh "u9" 0) Store.empty 1 "olá"
        (fun c => (c, .error "boom"))).2.2.user_contexts = [] :=
  ⟨rfl, rfl, rfl⟩

/-- Claim C7 as amended: when the opaque agent invocation raises, `chat`
returns the fixed fallback string and `message_count` is still incremented
for the attempted turn, but no context write happens during the failed turn
(`user_contexts` is untouched); the session remains usable: a subsequent
successful turn returns the agent response and persists the context,
including the increment of the failed turn (both turns counted). -/
theorem C7_turn_failure_degrades (fault : Bool) (uid : String)
    (ctx : ConversationContext) (store : Store) (now now2 now3 : Nat)
    (message message2 err resp : String) (hid : ctx.user_id = uid) :
    let failed := AgentManager.chat fault uid ctx store now message
      (fun c => (c, .error err))
    let next := AgentManager.chat false uid failed.2.1 failed.2.2 now2 message2
      (fun c => (c, .ok resp))
    failed.1 = fallbackResponse ∧
    failed.2.1.session_data.message_count = ctx.session_data.message_count + 1 ∧
    failed.2.2.user_contexts = store.user_contexts ∧
    next.1 = resp ∧
    (load_context now3 false next.2.2 uid).session_data.message_count =
      ctx.session_data.message_count + 2 := by
  intro failed next
  refine ⟨rfl, rfl, ?_, rfl, ?_⟩
  · show (save_chat_message fault store uid message "user").user_contexts =
      store.user_contexts
    cases fault <;> rfl
  · have hround := C1_save_load_roundtrip now3
      (save_chat_message false (save_chat_message false failed.2.2 uid message2 "user")
        uid resp "bot")
      uid ((ctx.update_activity now).update_activity now2)
      (by simpa [ConversationContext.update_activity] using hid)
    show (load_context now3 false
        (save_context false
          (save_chat_message false (save_chat_message false failed.2.2 uid message2 "user")
            uid resp "bot")
          uid ((ctx.update_activity now).update_activity now2)) uid).session_data.message_count =
      ctx.session_data.message_count + 2
    rw [hround]
    simp [ConversationContext.update_activity]

theorem C7_turn_failure_degrades_witness :
    (AgentManager.chat false "u9" (ConversationContext.fresh "u9" 0) Store.empty 1 "oi"
        (fun c => (c, .error "boom"))).1 = fallbackResponse ∧
    (load_context 9 false
        (AgentManager.chat false "u9"
          (AgentManager.chat false "u9" (ConversationContext.fresh "u9" 0) Store.empty 1 "oi"
            (fun c => (c, .error "boom"))).2.1
          (AgentManager.chat false "u9" (ConversationContext.fresh "u9" 0) Store.empty 1 "oi"
            (fun c => (c, .error "boom"))).2.2
          2 "tudo bem?" (fun c => (c, .ok "Tudo ótimo!"))).2.2
        "u9").session_data.message_count = 2 := by
  have h := C7_turn_failure_degrades false "u9" (ConversationContext.fresh "u9" 0)
    Store.empty 1 2 9 "oi" "tudo bem?" "boom" "Tudo ótimo!" rfl
  exact ⟨h.1, h.2.2.2.2⟩

end Agents2
